import Mathlib

/-!
Verification development for the `whisperly_client` repository: a typed client
for a remote localization/translation API.  JavaScript strings are modelled as
lists of characters (`JStr`); JSON values carried in transport bodies are
modelled by the inductive `Json`; each helper and client method is translated
into an executable Lean function, and the behavioural contracts are proved
about those functions.
-/

/-- JavaScript strings, modelled as lists of characters.  `+`/template
concatenation is `++`, `endsWith('/')` is a check on `getLast?`,
`slice(0, -1)` is `dropLast`, and `startsWith('/')` is a check on `head?`. -/
abbrev JStr := List Char

/-- Coerces a Lean string literal to the character-list model. -/
def str (s : String) : JStr := s.data

/-- JSON values, as carried in `NetworkResponse.data` (the raw response body).
`null` is its own constructor, so an object is never null. -/
inductive Json where
  | null : Json
  | bool (b : Bool) : Json
  | num (n : Int) : Json
  | jstr (s : JStr) : Json
  | arr (elems : List Json) : Json
  | obj (fields : List (JStr × Json)) : Json

/-- Field lookup on a JSON object: the JavaScript check `'data' in json`
followed by the access `json.data` (first binding wins, as object keys are
unique). -/
def findField (fields : List (JStr × Json)) (key : JStr) : Option Json :=
  match fields with
  | [] => none
  | (k, v) :: rest => if k = key then some v else findField rest key

/-- The completed transport result (`NetworkResponse` of `@sudobility/types`):
status flag, numeric status code, status text, raw body.  The external type
also carries `headers` and `success` fields that this library never reads. -/
structure NetworkResponse where
  ok : Bool
  status : Nat
  statusText : JStr
  data : Json

/-- `WhisperlyApiError` of `src/utils/whisperly-helpers.ts`: message, HTTP
status code and optional details from the response body (the class also sets
`name = 'WhisperlyApiError'`, a constant not modelled). -/
structure WhisperlyApiError where
  message : JStr
  statusCode : Nat
  details : Json

/-- `buildUrl` of `src/utils/whisperly-helpers.ts`: strips one trailing slash
from the base, adds a leading slash to the path when missing, concatenates. -/
def buildUrl (baseUrl path : JStr) : JStr :=
  let cleanBase := if baseUrl.getLast? = some '/' then baseUrl.dropLast else baseUrl
  let cleanPath := if path.head? = some '/' then path else '/' :: path
  cleanBase ++ cleanPath

/-- `handleNetworkResponse` of `src/utils/whisperly-helpers.ts`: on a failed
result throw a `WhisperlyApiError`; on success extract the `data` field of the
envelope when the body is a (non-null) object containing it, else return the
raw body.  The thrown/returned outcome is modelled with `Except`. -/
def handleNetworkResponse (r : NetworkResponse) : Except WhisperlyApiError Json :=
  if !r.ok then
    .error ⟨str "API request failed: " ++ r.statusText, r.status, r.data⟩
  else
    match r.data with
    | Json.obj fields =>
        match findField fields (str "data") with
        | some v => .ok v
        | none => .ok (Json.obj fields)
    | d => .ok d

/-- UTF-8 encoding of one character, as a list of byte values. -/
def utf8Bytes (c : Char) : List Nat :=
  let n := c.toNat
  if n < 0x80 then [n]
  else if n < 0x800 then [0xC0 + n / 64, 0x80 + n % 64]
  else if n < 0x10000 then [0xE0 + n / 4096, 0x80 + (n / 64) % 64, 0x80 + n % 64]
  else [0xF0 + n / 262144, 0x80 + (n / 4096) % 64, 0x80 + (n / 64) % 64, 0x80 + n % 64]

/-- Uppercase hexadecimal digit of a value below 16. -/
def hexDigit (n : Nat) : Char :=
  if n < 10 then Char.ofNat (48 + n) else Char.ofNat (65 + (n - 10))

/-- Percent-encoding of one byte: `%XX` with uppercase hex digits. -/
def percentByte (b : Nat) : JStr := ['%', hexDigit (b / 16), hexDigit (b % 16)]

/-- Characters left unchanged by JavaScript `encodeURIComponent`:
alphanumerics and `- _ . ! ~ * ' ( )`. -/
def isUriUnreserved (c : Char) : Bool :=
  (65 ≤ c.toNat && c.toNat ≤ 90) || (97 ≤ c.toNat && c.toNat ≤ 122) ||
  (48 ≤ c.toNat && c.toNat ≤ 57) ||
  c = '-' || c = '_' || c = '.' || c = '!' || c = '~' || c = '*' ||
  c = Char.ofNat 39 || c = '(' || c = ')'

/-- JavaScript `encodeURIComponent`: unreserved characters kept, everything
else percent-encoded over the character's UTF-8 bytes. -/
def encodeURIComponent (s : JStr) : JStr :=
  s.flatMap (fun c =>
    if isUriUnreserved c then [c] else (utf8Bytes c).flatMap percentByte)

/-- Characters left unchanged by the `application/x-www-form-urlencoded`
serializer used by `URLSearchParams`: alphanumerics and `* - . _`. -/
def isFormSafe (c : Char) : Bool :=
  (65 ≤ c.toNat && c.toNat ≤ 90) || (97 ≤ c.toNat && c.toNat ≤ 122) ||
  (48 ≤ c.toNat && c.toNat ≤ 57) ||
  c = '*' || c = '-' || c = '.' || c = '_'

/-- Form encoding of one string (`URLSearchParams` serialization of a key or
value): space becomes `+`, safe characters are kept, everything else is
percent-encoded over UTF-8 bytes. -/
def formEncode (s : JStr) : JStr :=
  s.flatMap (fun c =>
    if c = ' ' then ['+']
    else if isFormSafe c then [c]
    else (utf8Bytes c).flatMap percentByte)

/-- `URLSearchParams.toString()` on a sequence of appended `(key, value)`
pairs: form-encoded `key=value` fragments joined by `&`. -/
def urlSearchParamsToString (pairs : List (JStr × JStr)) : JStr :=
  List.intercalate (str "&") (pairs.map (fun p => formEncode p.1 ++ '=' :: formEncode p.2))

/-- A query-parameter value of `formatQueryParams`:
`string | number | boolean | undefined`. -/
inductive QueryVal where
  | s (v : JStr) : QueryVal
  | num (n : Int) : QueryVal
  | bool (b : Bool) : QueryVal
  | undefined : QueryVal

/-- The `value !== undefined` test of the filter in `formatQueryParams`. -/
def QueryVal.isUndefined : QueryVal → Bool
  | .undefined => true
  | _ => false

/-- JavaScript `String(value)` on a query-parameter value. -/
def QueryVal.jsToString : QueryVal → JStr
  | .s v => v
  | .num n => (toString n).data
  | .bool b => if b then str "true" else str "false"
  | .undefined => str "undefined"

/-- `formatQueryParams` of `src/utils/whisperly-helpers.ts`: drop entries whose
value is `undefined`; if nothing is left return the empty string; otherwise
append every remaining pair to a `URLSearchParams` and return `'?' +
searchParams.toString()`. -/
def formatQueryParams (params : List (JStr × QueryVal)) : JStr :=
  let filtered := params.filter (fun p => !p.2.isUndefined)
  if filtered.isEmpty then []
  else '?' :: urlSearchParamsToString (filtered.map (fun p => (p.1, p.2.jsToString)))

/-- C1: for every completed transport result whose success flag is true,
`handleNetworkResponse` returns the value stored under the key `data` when the
raw body is a (non-null) object containing that key, returns the raw body
unchanged otherwise, and never throws. -/
theorem whisperly_c1_success_unwrap (r : NetworkResponse) (hok : r.ok = true) :
    (∀ fields v, r.data = Json.obj fields → findField fields (str "data") = some v →
        handleNetworkResponse r = .ok v) ∧
    (∀ fields, r.data = Json.obj fields → findField fields (str "data") = none →
        handleNetworkResponse r = .ok r.data) ∧
    ((∀ fields, r.data ≠ Json.obj fields) → handleNetworkResponse r = .ok r.data) ∧
    (∃ v, handleNetworkResponse r = .ok v) := by
  refine ⟨?_, ?_, ?_, ?_⟩
  · intro fields v hdata hfind
    simp only [handleNetworkResponse, hok, Bool.not_true, Bool.false_eq_true, if_false, hdata, hfind]
  · intro fields hdata hfind
    simp only [handleNetworkResponse, hok, Bool.not_true, Bool.false_eq_true, if_false, hdata, hfind]
  · intro hnotobj
    cases hdata : r.data
    case obj fields => exact absurd hdata (hnotobj fields)
    all_goals simp [handleNetworkResponse, hok, hdata]
  · cases hdata : r.data
    case obj fields =>
      cases hfind : findField fields (str "data") with
      | some v => exact ⟨v, by simp [handleNetworkResponse, hok, hdata, hfind]⟩
      | none => exact ⟨Json.obj fields, by simp [handleNetworkResponse, hok, hdata, hfind]⟩
    all_goals exact ⟨r.data, by simp [handleNetworkResponse, hok, hdata]⟩

/-- Witness for C1: a success body `{data: {id: 1}}` yields `{id: 1}`, and a
success body `{id: 1}` without the wrapper is returned as-is. -/
theorem whisperly_c1_success_unwrap_witness :
    handleNetworkResponse
        ⟨true, 200, str "OK", Json.obj [(str "data", Json.obj [(str "id", Json.num 1)])]⟩
      = .ok (Json.obj [(str "id", Json.num 1)]) ∧
    handleNetworkResponse ⟨true, 200, str "OK", Json.obj [(str "id", Json.num 1)]⟩
      = .ok (Json.obj [(str "id", Json.num 1)]) := by
  constructor
  · exact (whisperly_c1_success_unwrap
      ⟨true, 200, str "OK", Json.obj [(str "data", Json.obj [(str "id", Json.num 1)])]⟩
      rfl).1 _ _ rfl rfl
  · exact (whisperly_c1_success_unwrap
      ⟨true, 200, str "OK", Json.obj [(str "id", Json.num 1)]⟩
      rfl).2.1 _ rfl rfl

/-- C2: for every completed transport result whose success flag is false,
`handleNetworkResponse` throws a `WhisperlyApiError` whose message is
`"API request failed: "` followed by the status text, whose `statusCode` is the
numeric status, and whose `details` is the raw body; no value is returned. -/
theorem whisperly_c2_failure_error (r : NetworkResponse) (hok : r.ok = false) :
    handleNetworkResponse r
      = .error ⟨str "API request failed: " ++ r.statusText, r.status, r.data⟩ := by
  simp only [handleNetworkResponse, hok, Bool.not_false, if_true]

/-- Witness for C2: a 404 result with body `{error: "x"}` throws the typed
error with the uniform message, status code 404 and the body as details. -/
theorem whisperly_c2_failure_error_witness :
    handleNetworkResponse
        ⟨false, 404, str "Not Found", Json.obj [(str "error", Json.jstr (str "x"))]⟩
      = .error ⟨str "API request failed: Not Found", 404,
                Json.obj [(str "error", Json.jstr (str "x"))]⟩ := by
  have h := whisperly_c2_failure_error
    ⟨false, 404, str "Not Found", Json.obj [(str "error", Json.jstr (str "x"))]⟩ rfl
  rw [h]
  rfl

/-- C8: `formatQueryParams` returns the empty string when no entry has a
present (non-`undefined`) value, and otherwise returns a string beginning with
`?` consisting of the form-encoded `key=value` pairs of exactly the present
entries joined by `&` (so `undefined`-valued keys never appear and
empty-string values are included). -/
theorem whisperly_c8_query_params (params : List (JStr × QueryVal)) :
    ((∀ p ∈ params, p.2.isUndefined = true) → formatQueryParams params = []) ∧
    ((∃ p ∈ params, p.2.isUndefined = false) →
      formatQueryParams params =
        '?' :: List.intercalate (str "&")
          ((params.filter (fun p => !p.2.isUndefined)).map
            (fun p => formEncode p.1 ++ '=' :: formEncode p.2.jsToString))) := by
  constructor
  · intro hall
    have hfil : params.filter (fun p => !p.2.isUndefined) = [] := by
      rw [List.filter_eq_nil_iff]
      intro a ha
      simp [hall a ha]
    simp [formatQueryParams, hfil]
  · rintro ⟨p, hp, hpres⟩
    have hne : params.filter (fun p => !p.2.isUndefined) ≠ [] := by
      intro hnil
      rw [List.filter_eq_nil_iff] at hnil
      exact hnil p hp (by simp [hpres])
    have hempty : (params.filter (fun p => !p.2.isUndefined)).isEmpty = false := by
      cases hc : params.filter (fun p => !p.2.isUndefined) with
      | nil => exact absurd hc hne
      | cons a l => simp
    simp only [formatQueryParams, hempty, Bool.false_eq_true, if_false,
      urlSearchParamsToString, List.map_map]
    rfl

/-- Witness for C8: `format({}) = ""`, `format({a: 1, b: undefined}) = "?a=1"`,
`format({a: "x y"}) = "?a=x+y"` (space encodes as `+`), and an empty-string
value is included (`format({a: ""}) = "?a="`). -/
theorem whisperly_c8_query_params_witness :
    formatQueryParams [] = str "" ∧
    formatQueryParams [(str "a", QueryVal.num 1), (str "b", QueryVal.undefined)] = str "?a=1" ∧
    formatQueryParams [(str "a", QueryVal.s (str "x y"))] = str "?a=x+y" ∧
    formatQueryParams [(str "a", QueryVal.s (str ""))] = str "?a=" := by
  refine ⟨(whisperly_c8_query_params []).1 (by simp), ?_, ?_, ?_⟩
  · have h := (whisperly_c8_query_params
      [(str "a", QueryVal.num 1), (str "b", QueryVal.undefined)]).2
      ⟨(str "a", QueryVal.num 1), by simp, by decide⟩
    rw [h]
    decide
  · have h := (whisperly_c8_query_params [(str "a", QueryVal.s (str "x y"))]).2
      ⟨(str "a", QueryVal.s (str "x y")), by simp, by decide⟩
    rw [h]
    decide
  · have h := (whisperly_c8_query_params [(str "a", QueryVal.s (str ""))]).2
      ⟨(str "a", QueryVal.s (str "")), by simp, by decide⟩
    rw [h]
    decide

/-- The error families a client method can surface: the typed API error
(`WhisperlyApiError` fields), a generic `Error` with only a message, or the
authentication failure raised before any network call. -/
inductive ClientError where
  | api (message : JStr) (statusCode : Nat) (details : Json) : ClientError
  | generic (message : JStr) : ClientError
  | auth (message : JStr) : ClientError

/-- Modelled from the spec: `handleApiResponse` is imported from
`whisperly-helpers` by every revision of `WhisperlyClient.ts`, but no revision
of its definition survives in the sources (only its unit tests).  Per spec
section 4.4 and those tests: a failed result throws the typed API error with
message `"API request failed: " + statusText`, the numeric status code and the
(best-effort parsed) body as details; a successful result is unwrapped from
the `{success, data, timestamp}` envelope when the body carries a `data` key,
else returned unchanged. -/
def handleApiResponse (r : NetworkResponse) : Except ClientError Json :=
  if !r.ok then
    .error (.api (str "API request failed: " ++ r.statusText) r.status r.data)
  else
    match r.data with
    | Json.obj fields =>
        match findField fields (str "data") with
        | some v => .ok v
        | none => .ok (Json.obj fields)
    | d => .ok d

/-- The methods of the endpoint/glossary revision of
`src/network/WhisperlyClient.ts`, one constructor per public method. -/
inductive Method where
  | getProjects | getProject | createProject | updateProject | deleteProject
  | getEndpoints | getEndpoint | createEndpoint | updateEndpoint | deleteEndpoint
  | getGlossaries | getGlossary | createGlossary | updateGlossary | deleteGlossary
  | importGlossaries | exportGlossaries
  | getSettings | updateSettings
  | getAnalytics | getRateLimits | getRateLimitHistory
  | translate
  deriving DecidableEq

/-- How each method of `src/network/WhisperlyClient.ts` turns the completed
transport result into a value or an error: `deleteProject`, `deleteEndpoint`
and `deleteGlossary` throw a bespoke generic `Error` on failure and resolve
with no value on success; `exportGlossaries` throws a bespoke generic `Error`
on failure and resolves with the raw body text on success; every other method
passes the result through `handleApiResponse`. -/
def methodResult (m : Method) (r : NetworkResponse) : Except ClientError Json :=
  match m with
  | .deleteProject =>
      if !r.ok then .error (.generic (str "Failed to delete project: " ++ r.statusText))
      else .ok Json.null
  | .deleteEndpoint =>
      if !r.ok then .error (.generic (str "Failed to delete endpoint: " ++ r.statusText))
      else .ok Json.null
  | .deleteGlossary =>
      if !r.ok then .error (.generic (str "Failed to delete glossary: " ++ r.statusText))
      else .ok Json.null
  | .exportGlossaries =>
      if !r.ok then .error (.generic (str "Failed to export glossaries: " ++ r.statusText))
      else .ok r.data
  | _ => handleApiResponse r

/-- C3 counterexample: on a failed 404 result, `deleteEndpoint` surfaces a
generic error with bespoke text, not the uniform typed API error — so
`deleteProject` is not the only exception to the uniform failure contract. -/
theorem whisperly_c3_counterexample :
    methodResult Method.deleteEndpoint ⟨false, 404, str "Not Found", Json.null⟩
      = .error (.generic (str "Failed to delete endpoint: Not Found")) ∧
    Method.deleteEndpoint ≠ Method.deleteProject ∧
    ClientError.generic (str "Failed to delete endpoint: Not Found")
      ≠ ClientError.api (str "API request failed: Not Found") 404 Json.null := by
  refine ⟨rfl, by decide, fun h => ClientError.noConfusion h⟩

/-- C3 amended: for every client method other than `deleteProject`,
`deleteEndpoint`, `deleteGlossary` and `exportGlossaries`, a non-success
transport result surfaces as the single typed API error with the uniform
message `"API request failed: " + statusText`, the numeric status code and the
raw body as details; those four methods are the only exceptions. -/
theorem whisperly_c3_uniform_failure_amended (m : Method) (r : NetworkResponse)
    (hok : r.ok = false)
    (h1 : m ≠ Method.deleteProject) (h2 : m ≠ Method.deleteEndpoint)
    (h3 : m ≠ Method.deleteGlossary) (h4 : m ≠ Method.exportGlossaries) :
    methodResult m r
      = .error (.api (str "API request failed: " ++ r.statusText) r.status r.data) := by
  cases m
  case deleteProject => exact absurd rfl h1
  case deleteEndpoint => exact absurd rfl h2
  case deleteGlossary => exact absurd rfl h3
  case exportGlossaries => exact absurd rfl h4
  all_goals simp [methodResult, handleApiResponse, hok]

/-- Witness for the C3 amended theorem: `getProjects` on a failed 401 result
surfaces the uniform typed API error. -/
theorem whisperly_c3_uniform_failure_amended_witness :
    methodResult Method.getProjects
        ⟨false, 401, str "Unauthorized", Json.obj [(str "error", Json.jstr (str "Not authenticated"))]⟩
      = .error (.api (str "API request failed: Unauthorized") 401
          (Json.obj [(str "error", Json.jstr (str "Not authenticated"))])) := by
  have h := whisperly_c3_uniform_failure_amended Method.getProjects
    ⟨false, 401, str "Unauthorized", Json.obj [(str "error", Json.jstr (str "Not authenticated"))]⟩
    rfl (by decide) (by decide) (by decide) (by decide)
  rw [h]
  rfl

/-- An HTTP request as handed to the transport: URL, verb, header pairs and
optional JSON-encoded body. -/
structure Request where
  url : JStr
  method : JStr
  headers : List (JStr × JStr)
  body : Option JStr

/-- Modelled from the spec: `createAuthHeaders` is imported from
`whisperly-helpers` by every revision of `WhisperlyClient.ts`, but its
definition is absent from the sources (only its unit tests survive).  Per spec
section 4.3 and those tests: resolve the credential provider once; with a
token produce exactly the bearer authorization header and the JSON
content-type header; with no token fail with the authentication error
`'No authentication token available'`.  The resolved provider value is passed
in as `token`. -/
def createAuthHeaders (token : Option JStr) : Except ClientError (List (JStr × JStr)) :=
  match token with
  | some t => .ok [(str "Authorization", str "Bearer " ++ t),
                   (str "Content-Type", str "application/json")]
  | none => .error (.auth (str "No authentication token available"))

/-- One observed execution of a client method: how many times the credential
provider was resolved, the requests handed to the transport (in order), and
the final outcome. -/
structure MethodRun where
  providerCalls : Nat
  requests : List Request
  outcome : Except ClientError Json

/-- The shared shape of every authenticated method of `WhisperlyClient.ts`:
`const headers = await createAuthHeaders(this.getIdToken)` — one provider
resolution — then one `fetch(url, {method, headers, body})`, then
`handleApiResponse(response)`; when `createAuthHeaders` throws, the method
rejects before any transport call.  The provider is modelled as the stream of
values its successive resolutions produce. -/
def runAuthedMethod (provider : Nat → Option JStr) (url method : JStr)
    (body : Option JStr) (transport : Request → NetworkResponse) : MethodRun :=
  match createAuthHeaders (provider 0) with
  | .error e => ⟨1, [], .error e⟩
  | .ok headers =>
      let req : Request := ⟨url, method, headers, body⟩
      ⟨1, [req], handleApiResponse (transport req)⟩

/-- C4: every authenticated client method resolves the credential provider
exactly once per invocation; when it resolves to a token `t` the request
headers are exactly the bearer authorization header and the JSON content-type
header; when it resolves to no token the method fails with the authentication
error `'No authentication token available'` and zero transport calls are
observed. -/
theorem whisperly_c4_auth_headers (provider : Nat → Option JStr) (url method : JStr)
    (body : Option JStr) (transport : Request → NetworkResponse) :
    (runAuthedMethod provider url method body transport).providerCalls = 1 ∧
    (∀ t, provider 0 = some t →
      (runAuthedMethod provider url method body transport).requests
        = [⟨url, method,
            [(str "Authorization", str "Bearer " ++ t),
             (str "Content-Type", str "application/json")], body⟩]) ∧
    (provider 0 = none →
      (runAuthedMethod provider url method body transport).requests = [] ∧
      (runAuthedMethod provider url method body transport).outcome
        = .error (.auth (str "No authentication token available"))) := by
  refine ⟨?_, ?_, ?_⟩
  · cases h : provider 0 <;> simp [runAuthedMethod, createAuthHeaders, h]
  · intro t ht
    simp [runAuthedMethod, createAuthHeaders, ht]
  · intro hnone
    simp [runAuthedMethod, createAuthHeaders, hnone]

/-- Witness for C4: a provider resolving to `"tok"` yields exactly the two
headers; a provider resolving to no token issues zero transport calls and
fails with the authentication error. -/
theorem whisperly_c4_auth_headers_witness :
    (runAuthedMethod (fun _ => some (str "tok")) (str "https://api.example.com/projects")
        (str "GET") none (fun _ => ⟨true, 200, str "OK", Json.null⟩)).requests
      = [⟨str "https://api.example.com/projects", str "GET",
          [(str "Authorization", str "Bearer tok"),
           (str "Content-Type", str "application/json")], none⟩] ∧
    (runAuthedMethod (fun _ => none) (str "https://api.example.com/projects")
        (str "GET") none (fun _ => ⟨true, 200, str "OK", Json.null⟩)).requests = [] ∧
    (runAuthedMethod (fun _ => none) (str "https://api.example.com/projects")
        (str "GET") none (fun _ => ⟨true, 200, str "OK", Json.null⟩)).outcome
      = .error (.auth (str "No authentication token available")) ∧
    (runAuthedMethod (fun _ => some (str "tok")) (str "https://api.example.com/projects")
        (str "GET") none (fun _ => ⟨true, 200, str "OK", Json.null⟩)).providerCalls = 1 := by
  have h1 := whisperly_c4_auth_headers (fun _ => some (str "tok"))
    (str "https://api.example.com/projects") (str "GET") none
    (fun _ => ⟨true, 200, str "OK", Json.null⟩)
  have h2 := whisperly_c4_auth_headers (fun _ => none)
    (str "https://api.example.com/projects") (str "GET") none
    (fun _ => ⟨true, 200, str "OK", Json.null⟩)
  refine ⟨?_, (h2.2.2 rfl).1, (h2.2.2 rfl).2, h1.1⟩
  have h := h1.2.1 (str "tok") rfl
  rw [h]
  rfl

/-- Modelled from the spec: the corrected-variant `deleteProject` (spec
section 8, scenario B, and its test in the NetworkClient-based revision, whose
client source is absent): on a failed result it throws the typed API error
with message `"Failed to delete project: " + statusText`, the numeric status
code and the response body as details. -/
def deleteProjectCorrected (r : NetworkResponse) : Except ClientError Json :=
  if !r.ok then
    .error (.api (str "Failed to delete project: " ++ r.statusText) r.status r.data)
  else .ok Json.null

/-- The substring relation on modelled JavaScript strings. -/
def containsSub (s sub : JStr) : Prop := ∃ pre post, s = pre ++ sub ++ post

/-- C6: against a failed transport result with status 404 and status text
`'Not Found'`, `deleteProject` rejects with an error whose message contains
`'Not Found'`; in the corrected variant that error is the typed API error with
`statusCode = 404` and `details` equal to the response body, and its message
still contains `'Not Found'`. -/
theorem whisperly_c6_delete_project_not_found (r : NetworkResponse)
    (hok : r.ok = false) (hst : r.status = 404) (htxt : r.statusText = str "Not Found") :
    (methodResult Method.deleteProject r
        = .error (.generic (str "Failed to delete project: Not Found")) ∧
      containsSub (str "Failed to delete project: Not Found") (str "Not Found")) ∧
    (deleteProjectCorrected r
        = .error (.api (str "Failed to delete project: Not Found") 404 r.data) ∧
      containsSub (str "Failed to delete project: Not Found") (str "Not Found")) := by
  have hcontains : containsSub (str "Failed to delete project: Not Found") (str "Not Found") :=
    ⟨str "Failed to delete project: ", [], by decide⟩
  refine ⟨⟨?_, hcontains⟩, ⟨?_, hcontains⟩⟩
  · have h : methodResult Method.deleteProject r
        = .error (.generic (str "Failed to delete project: " ++ r.statusText)) := by
      simp [methodResult, hok]
    rw [h, htxt]
    rfl
  · have h : deleteProjectCorrected r
        = .error (.api (str "Failed to delete project: " ++ r.statusText) r.status r.data) := by
      simp [deleteProjectCorrected, hok]
    rw [h, htxt, hst]
    rfl

/-- Witness for C6: the concrete failed 404 `'Not Found'` result with body
`{error: "x"}`, instantiating both halves. -/
theorem whisperly_c6_delete_project_not_found_witness :
    methodResult Method.deleteProject
        ⟨false, 404, str "Not Found", Json.obj [(str "error", Json.jstr (str "x"))]⟩
      = .error (.generic (str "Failed to delete project: Not Found")) ∧
    deleteProjectCorrected
        ⟨false, 404, str "Not Found", Json.obj [(str "error", Json.jstr (str "x"))]⟩
      = .error (.api (str "Failed to delete project: Not Found") 404
          (Json.obj [(str "error", Json.jstr (str "x"))])) := by
  have h := whisperly_c6_delete_project_not_found
    ⟨false, 404, str "Not Found", Json.obj [(str "error", Json.jstr (str "x"))]⟩
    rfl rfl rfl
  exact ⟨h.1.1, h.2.1⟩

/-- The fixed API-version prefix `private apiPrefix = '/api/v1'` of the
prefixed revision of `WhisperlyClient.ts`. -/
def apiPrefix : JStr := str "/api/v1"

/-- The private `url(path)` helper of the prefixed revision of
`WhisperlyClient.ts`: `buildUrl(this.baseUrl, apiPrefix + path)`. -/
def clientUrl (baseUrl path : JStr) : JStr := buildUrl baseUrl (apiPrefix ++ path)

/-- A translation request (`TranslationRequest` of the shared type package):
the strings to translate and the target language codes. -/
structure TranslationRequest where
  strings : List JStr
  target_languages : List JStr

/-- Lowercase hexadecimal digit of a value below 16. -/
def hexDigitLower (n : Nat) : Char :=
  if n < 10 then Char.ofNat (48 + n) else Char.ofNat (97 + (n - 10))

/-- `JSON.stringify` escaping of one character inside a string literal. -/
def jsonEscapeChar (c : Char) : JStr :=
  if c = '"' then ['\\', '"']
  else if c = '\\' then ['\\', '\\']
  else if c = Char.ofNat 8 then ['\\', 'b']
  else if c = Char.ofNat 9 then ['\\', 't']
  else if c = Char.ofNat 10 then ['\\', 'n']
  else if c = Char.ofNat 12 then ['\\', 'f']
  else if c = Char.ofNat 13 then ['\\', 'r']
  else if c.toNat < 32 then
    ['\\', 'u', '0', '0', hexDigitLower (c.toNat / 16), hexDigitLower (c.toNat % 16)]
  else [c]

/-- `JSON.stringify` of a string value: double quotes around the escaped
characters. -/
def jsonQuote (s : JStr) : JStr := '"' :: (s.flatMap jsonEscapeChar ++ ['"'])

/-- `JSON.stringify` of an array of strings. -/
def jsonStringArray (xs : List JStr) : JStr :=
  '[' :: (List.intercalate (str ",") (xs.map jsonQuote) ++ [']'])

/-- `JSON.stringify(request)` for a `TranslationRequest` (object keys in
declaration order). -/
def stringifyTranslationRequest (req : TranslationRequest) : JStr :=
  str "\x7b\"strings\":" ++ jsonStringArray req.strings
    ++ str ",\"target_languages\":" ++ jsonStringArray req.target_languages ++ str "\x7d"

/-- The query parameters of `translate` in the prefixed revision of
`WhisperlyClient.ts`:
`formatQueryParams({testMode: testMode ? 'true' : undefined, api_key: apiKey})`. -/
def translateParams (testMode : Bool) (apiKey : Option JStr) : JStr :=
  formatQueryParams
    [(str "testMode", if testMode then QueryVal.s (str "true") else QueryVal.undefined),
     (str "api_key", match apiKey with | some k => QueryVal.s k | none => QueryVal.undefined)]

/-- The `translate` method of the prefixed revision of `WhisperlyClient.ts`:
no `createAuthHeaders` call (the endpoint is public), a single `POST` to
`this.url('/translate/' + orgPath + '/' + projectName + params)` with only the
JSON content-type header and the stringified request as body, normalized by
`handleApiResponse`.  The unused credential provider is still a parameter so
that independence from it can be stated. -/
def runTranslate (provider : Nat → Option JStr) (baseUrl orgPath projectName : JStr)
    (request : TranslationRequest) (testMode : Bool) (apiKey : Option JStr)
    (transport : Request → NetworkResponse) : MethodRun :=
  let params := translateParams testMode apiKey
  let req : Request :=
    ⟨clientUrl baseUrl (str "/translate/" ++ orgPath ++ str "/" ++ projectName ++ params),
     str "POST", [(str "Content-Type", str "application/json")],
     some (stringifyTranslationRequest request)⟩
  ⟨0, [req], handleApiResponse (transport req)⟩

/-- C5: `translate` never invokes the credential provider (its run is
identical under any two providers, with zero provider resolutions) and its
single issued request carries only the JSON content-type header — no
authorization header; the request is a `POST` to the
`/api/v1/translate/{orgPath}/{projectName}` path with the stringified
translation request as body; the `testMode` flag and `api_key` are appended as
query parameters exactly when present. -/
theorem whisperly_c5_translate_unauthenticated
    (p1 p2 : Nat → Option JStr) (baseUrl orgPath projectName : JStr)
    (request : TranslationRequest) (testMode : Bool) (apiKey : Option JStr)
    (transport : Request → NetworkResponse) :
    runTranslate p1 baseUrl orgPath projectName request testMode apiKey transport
      = runTranslate p2 baseUrl orgPath projectName request testMode apiKey transport ∧
    (runTranslate p1 baseUrl orgPath projectName request testMode apiKey transport).providerCalls
      = 0 ∧
    (runTranslate p1 baseUrl orgPath projectName request testMode apiKey transport).requests
      = [⟨buildUrl baseUrl (str "/api/v1/translate/" ++ orgPath ++ str "/" ++ projectName
            ++ translateParams testMode apiKey),
          str "POST", [(str "Content-Type", str "application/json")],
          some (stringifyTranslationRequest request)⟩] ∧
    translateParams false none = [] ∧
    translateParams true none = str "?testMode=true" ∧
    (∀ k, translateParams false (some k) = str "?api_key=" ++ formEncode k) ∧
    (∀ k, translateParams true (some k) = str "?testMode=true&api_key=" ++ formEncode k) := by
  refine ⟨rfl, rfl, rfl, rfl, by decide, ?_, ?_⟩
  · intro k
    have henc : formEncode (str "api_key") = str "api_key" := by decide
    show '?' :: List.intercalate (str "&") [formEncode (str "api_key") ++ '=' :: formEncode k]
        = str "?api_key=" ++ formEncode k
    simp only [List.intercalate, List.intersperse, List.flatten, List.append_nil, henc]
    rfl
  · intro k
    have henc : formEncode (str "api_key") = str "api_key" := by decide
    have henc2 : formEncode (str "testMode") ++ '=' :: formEncode (str "true")
        = str "testMode=true" := by decide
    show '?' :: List.intercalate (str "&")
          [formEncode (str "testMode") ++ '=' :: formEncode (str "true"),
           formEncode (str "api_key") ++ '=' :: formEncode k]
        = str "?testMode=true&api_key=" ++ formEncode k
    simp only [List.intercalate, List.intersperse, List.flatten, List.append_nil, henc, henc2]
    rfl

/-- Witness for C5 (spec scenario C): `translate("acme","proj",...)` issues the
same single request under a token-yielding provider and a token-less one — a
`POST` to `{base}/api/v1/translate/acme/proj` with only the JSON content-type
header and body `{"strings":["Hi"],"target_languages":["es"]}`. -/
theorem whisperly_c5_translate_unauthenticated_witness :
    runTranslate (fun _ => some (str "tok")) (str "https://api.example.com")
        (str "acme") (str "proj") ⟨[str "Hi"], [str "es"]⟩ false none
        (fun _ => ⟨true, 200, str "OK", Json.null⟩)
      = runTranslate (fun _ => none) (str "https://api.example.com")
        (str "acme") (str "proj") ⟨[str "Hi"], [str "es"]⟩ false none
        (fun _ => ⟨true, 200, str "OK", Json.null⟩) ∧
    (runTranslate (fun _ => some (str "tok")) (str "https://api.example.com")
        (str "acme") (str "proj") ⟨[str "Hi"], [str "es"]⟩ false none
        (fun _ => ⟨true, 200, str "OK", Json.null⟩)).requests
      = [⟨str "https://api.example.com/api/v1/translate/acme/proj", str "POST",
          [(str "Content-Type", str "application/json")],
          some (str "\x7b\"strings\":[\"Hi\"],\"target_languages\":[\"es\"]\x7d")⟩] := by
  have h := whisperly_c5_translate_unauthenticated (fun _ => some (str "tok")) (fun _ => none)
    (str "https://api.example.com") (str "acme") (str "proj") ⟨[str "Hi"], [str "es"]⟩
    false none (fun _ => ⟨true, 200, str "OK", Json.null⟩)
  refine ⟨h.1, ?_⟩
  rw [h.2.2.1]
  rfl

/-- The `getRateLimits` request URL of `src/network/WhisperlyClient.ts`:
`buildUrl(this.baseUrl, '/ratelimits/' + entitySlug + params)` where `params`
is `formatQueryParams({testMode: 'true'})` when `testMode` is set and the
empty string otherwise. -/
def getRateLimitsUrl (baseUrl entitySlug : JStr) (testMode : Bool) : JStr :=
  let params := if testMode then formatQueryParams [(str "testMode", QueryVal.s (str "true"))]
                else []
  buildUrl baseUrl (str "/ratelimits/" ++ entitySlug ++ params)

/-- The `'hour' | 'day' | 'month'` period selector of `getRateLimitHistory`. -/
inductive PeriodType where
  | hour : PeriodType
  | day : PeriodType
  | month : PeriodType

/-- The path segment each period selector substitutes into the template. -/
def PeriodType.toPath : PeriodType → JStr
  | .hour => str "hour"
  | .day => str "day"
  | .month => str "month"

/-- The `getRateLimitHistory` request URL of `src/network/WhisperlyClient.ts`:
`buildUrl(this.baseUrl, '/ratelimits/' + entitySlug + '/history/' + periodType
+ params)` with the same `params` rule as `getRateLimits`. -/
def getRateLimitHistoryUrl (baseUrl entitySlug : JStr) (periodType : PeriodType)
    (testMode : Bool) : JStr :=
  let params := if testMode then formatQueryParams [(str "testMode", QueryVal.s (str "true"))]
                else []
  buildUrl baseUrl (str "/ratelimits/" ++ entitySlug ++ str "/history/"
    ++ periodType.toPath ++ params)

/-- Every character of a built URL comes from the base, the path, or the
single inserted slash. -/
theorem mem_buildUrl (b p : JStr) (c : Char) (hc : c ∈ buildUrl b p) :
    c ∈ b ∨ c ∈ p ∨ c = '/' := by
  unfold buildUrl at hc
  rcases List.mem_append.mp hc with h | h
  · by_cases hb : b.getLast? = some '/'
    · rw [if_pos hb] at h
      exact Or.inl ((List.dropLast_sublist b).subset h)
    · rw [if_neg hb] at h
      exact Or.inl h
  · by_cases hp : p.head? = some '/'
    · rw [if_pos hp] at h
      exact Or.inr (Or.inl h)
    · rw [if_neg hp] at h
      rcases List.mem_cons.mp h with h | h
      · exact Or.inr (Or.inr h)
      · exact Or.inr (Or.inl h)

/-- Appending a fragment to a path that already starts with a slash commutes
with `buildUrl`. -/
theorem buildUrl_append_right (b p q : JStr) (h : p.head? = some '/') :
    buildUrl b (p ++ q) = buildUrl b p ++ q := by
  unfold buildUrl
  cases p with
  | nil => simp at h
  | cons c cs =>
    simp only [List.head?] at h ⊢
    injection h with h
    subst h
    simp [List.append_assoc]

/-- C10: with `testMode = false` (the default), `getRateLimits` and
`getRateLimitHistory` request a URL with no query string at all (the parameter
is omitted entirely, never sent as `testMode=false`: the URL equals the
parameterless one and contains no `?` whenever base and slug contain none);
exactly when `testMode = true` the suffix `?testMode=true` is appended. -/
theorem whisperly_c10_test_mode_param (baseUrl entitySlug : JStr) (periodType : PeriodType) :
    (getRateLimitsUrl baseUrl entitySlug false
        = buildUrl baseUrl (str "/ratelimits/" ++ entitySlug) ∧
      getRateLimitHistoryUrl baseUrl entitySlug periodType false
        = buildUrl baseUrl
            (str "/ratelimits/" ++ entitySlug ++ str "/history/" ++ periodType.toPath)) ∧
    (('?' ∉ baseUrl → '?' ∉ entitySlug →
        '?' ∉ getRateLimitsUrl baseUrl entitySlug false) ∧
      ('?' ∉ baseUrl → '?' ∉ entitySlug →
        '?' ∉ getRateLimitHistoryUrl baseUrl entitySlug periodType false)) ∧
    (getRateLimitsUrl baseUrl entitySlug true
        = buildUrl baseUrl (str "/ratelimits/" ++ entitySlug) ++ str "?testMode=true" ∧
      getRateLimitHistoryUrl baseUrl entitySlug periodType true
        = buildUrl baseUrl
            (str "/ratelimits/" ++ entitySlug ++ str "/history/" ++ periodType.toPath)
          ++ str "?testMode=true") := by
  have hq : formatQueryParams [(str "testMode", QueryVal.s (str "true"))]
      = str "?testMode=true" := by decide
  refine ⟨⟨?_, ?_⟩, ⟨?_, ?_⟩, ⟨?_, ?_⟩⟩
  · simp [getRateLimitsUrl]
  · simp [getRateLimitHistoryUrl]
  · intro h1 h2 hmem
    have hmem2 : ('?' : Char) ∈ buildUrl baseUrl (str "/ratelimits/" ++ entitySlug) := by
      simpa [getRateLimitsUrl] using hmem
    rcases mem_buildUrl _ _ _ hmem2 with h | h | h
    · exact h1 h
    · rcases List.mem_append.mp h with h | h
      · revert h
        decide
      · exact h2 h
    · exact absurd h (by decide)
  · intro h1 h2 hmem
    have hmem2 : ('?' : Char) ∈ buildUrl baseUrl
        (str "/ratelimits/" ++ (entitySlug ++ (str "/history/" ++ periodType.toPath))) := by
      simpa [getRateLimitHistoryUrl] using hmem
    rcases mem_buildUrl _ _ _ hmem2 with h | h | h
    · exact h1 h
    · rcases List.mem_append.mp h with h | h
      · revert h
        decide
      · rcases List.mem_append.mp h with h | h
        · exact h2 h
        · rcases List.mem_append.mp h with h | h
          · revert h
            decide
          · cases periodType <;> revert h <;> decide
    · exact absurd h (by decide)
  · show buildUrl baseUrl (str "/ratelimits/" ++ entitySlug
        ++ formatQueryParams [(str "testMode", QueryVal.s (str "true"))]) = _
    rw [hq]
    have hassoc : str "/ratelimits/" ++ entitySlug ++ str "?testMode=true"
        = (str "/ratelimits/" ++ entitySlug) ++ str "?testMode=true" := by
      simp [List.append_assoc]
    rw [hassoc]
    exact buildUrl_append_right baseUrl (str "/ratelimits/" ++ entitySlug)
      (str "?testMode=true") rfl
  · show buildUrl baseUrl (str "/ratelimits/" ++ entitySlug ++ str "/history/"
        ++ periodType.toPath
        ++ formatQueryParams [(str "testMode", QueryVal.s (str "true"))]) = _
    rw [hq]
    have hassoc : str "/ratelimits/" ++ entitySlug ++ str "/history/"
          ++ periodType.toPath ++ str "?testMode=true"
        = (str "/ratelimits/" ++ entitySlug ++ str "/history/" ++ periodType.toPath)
          ++ str "?testMode=true" := by
      simp [List.append_assoc]
    rw [hassoc]
    exact buildUrl_append_right baseUrl
      (str "/ratelimits/" ++ entitySlug ++ str "/history/" ++ periodType.toPath)
      (str "?testMode=true") rfl

/-- Witness for C10: concrete rate-limit URLs — no query string at all when
`testMode` is false, the `?testMode=true` suffix exactly when it is true. -/
theorem whisperly_c10_test_mode_param_witness :
    getRateLimitsUrl (str "https://api.example.com") (str "my-org") false
      = str "https://api.example.com/ratelimits/my-org" ∧
    '?' ∉ getRateLimitsUrl (str "https://api.example.com") (str "my-org") false ∧
    getRateLimitsUrl (str "https://api.example.com") (str "my-org") true
      = str "https://api.example.com/ratelimits/my-org?testMode=true" ∧
    getRateLimitHistoryUrl (str "https://api.example.com") (str "my-org") PeriodType.day true
      = str "https://api.example.com/ratelimits/my-org/history/day?testMode=true" := by
  have h := whisperly_c10_test_mode_param (str "https://api.example.com") (str "my-org")
    PeriodType.day
  refine ⟨?_, h.2.1.1 (by decide) (by decide), ?_, ?_⟩
  · rw [h.1.1]
    rfl
  · rw [h.2.2.1]
    rfl
  · rw [h.2.2.2]
    rfl

/-- The `searchDictionary` method of `src/network/WhisperlyClient.ts`:
authenticated `GET` of
``buildUrl(this.baseUrl, `/entities/${entitySlug}/projects/${projectId}/dictionary/search/${encodeURIComponent(languageCode)}/${encodeURIComponent(text)}`)``,
normalized by `handleApiResponse`. -/
def runSearchDictionary (provider : Nat → Option JStr)
    (baseUrl entitySlug projectId languageCode text : JStr)
    (transport : Request → NetworkResponse) : MethodRun :=
  runAuthedMethod provider
    (buildUrl baseUrl
      (str "/entities/" ++ entitySlug ++ str "/projects/" ++ projectId
        ++ str "/dictionary/search/" ++ encodeURIComponent languageCode ++ str "/"
        ++ encodeURIComponent text))
    (str "GET") none transport

/-- C9: for every entity slug, project id, language code and search text,
`searchDictionary` (with a resolving credential provider) requests exactly the
URL obtained from the template
`/entities/{entitySlug}/projects/{projectId}/dictionary/search/{languageCode}/{text}`
with `encodeURIComponent` applied to the language-code and text segments and
the entity-slug and project-id segments substituted without encoding. -/
theorem whisperly_c9_search_dictionary_url (provider : Nat → Option JStr)
    (baseUrl entitySlug projectId languageCode text : JStr)
    (transport : Request → NetworkResponse) (t : JStr) (ht : provider 0 = some t) :
    (runSearchDictionary provider baseUrl entitySlug projectId languageCode text
        transport).requests.map Request.url
      = [buildUrl baseUrl
          (str "/entities/" ++ entitySlug ++ str "/projects/" ++ projectId
            ++ str "/dictionary/search/" ++ encodeURIComponent languageCode ++ str "/"
            ++ encodeURIComponent text)] ∧
    (runSearchDictionary provider baseUrl entitySlug projectId languageCode text
        transport).requests.map Request.method = [str "GET"] := by
  constructor <;>
    simp [runSearchDictionary, runAuthedMethod, createAuthHeaders, ht]

/-- Witness for C9: a language code and search text with reserved characters
are percent-encoded in the requested URL, while slug and project id are not. -/
theorem whisperly_c9_search_dictionary_url_witness :
    (runSearchDictionary (fun _ => some (str "tok")) (str "https://api.example.com")
        (str "my-org") (str "proj-1") (str "pt BR") (str "a/b?")
        (fun _ => ⟨true, 200, str "OK", Json.null⟩)).requests.map Request.url
      = [str "https://api.example.com/entities/my-org/projects/proj-1/dictionary/search/pt%20BR/a%2Fb%3F"] := by
  have h := whisperly_c9_search_dictionary_url (fun _ => some (str "tok"))
    (str "https://api.example.com") (str "my-org") (str "proj-1") (str "pt BR")
    (str "a/b?") (fun _ => ⟨true, 200, str "OK", Json.null⟩) (str "tok") rfl
  rw [h.1]
  rfl

/-- Number of slash characters at the end of a string. -/
def trailingSlashCount (s : JStr) : Nat :=
  (s.reverse.takeWhile (fun c => c == '/')).length

/-- Number of slash characters at the start of a string. -/
def leadingSlashCount (s : JStr) : Nat :=
  (s.takeWhile (fun c => c == '/')).length

/-- The string with every trailing slash removed. -/
def trimTrailingSlashes (s : JStr) : JStr :=
  (s.reverse.dropWhile (fun c => c == '/')).reverse

/-- The string with every leading slash removed. -/
def trimLeadingSlashes (s : JStr) : JStr :=
  s.dropWhile (fun c => c == '/')

/-- Follows the spec's words (claim C7): "exactly one address with exactly one
separating slash, regardless of whether the base ends with a slash or the
fragment starts with one" — the base without its trailing slashes, one
separating slash, the fragment without its leading slashes. -/
def singleSlashJoin (b p : JStr) : JStr :=
  trimTrailingSlashes b ++ '/' :: trimLeadingSlashes p

/-- C7 counterexample: for the base `"https://h//"` (two trailing slashes) and
fragment `"x"`, `buildUrl` keeps two separating slashes, so the
universally-quantified "exactly one separating slash" contract fails. -/
theorem whisperly_c7_counterexample :
    buildUrl (str "https://h//") (str "x") = str "https://h//x" ∧
    singleSlashJoin (str "https://h//") (str "x") = str "https://h/x" ∧
    buildUrl (str "https://h//") (str "x") ≠ singleSlashJoin (str "https://h//") (str "x") := by
  decide

/-- A list whose `takeWhile` is empty is unchanged by `dropWhile`. -/
theorem dropWhile_eq_self_of_takeWhile_nil (f : Char → Bool) (l : JStr)
    (h : l.takeWhile f = []) : l.dropWhile f = l := by
  cases l with
  | nil => rfl
  | cons a as =>
    by_cases hf : f a
    · simp [List.takeWhile_cons, hf] at h
    · simp [List.dropWhile_cons, hf]

/-- With at most one leading slash, the `cleanPath` step of `buildUrl` yields
exactly one leading slash followed by the trimmed fragment. -/
theorem cleanPath_eq (p : JStr) (h : leadingSlashCount p ≤ 1) :
    (if p.head? = some '/' then p else '/' :: p) = '/' :: trimLeadingSlashes p := by
  cases p with
  | nil => simp [trimLeadingSlashes]
  | cons c cs =>
    by_cases hc : c = '/'
    · subst hc
      have htake : cs.takeWhile (fun c => c == '/') = [] := by
        have h1 : ('/' :: cs.takeWhile (fun c => c == '/')).length ≤ 1 := h
        rw [List.length_cons] at h1
        have h2 : (cs.takeWhile (fun c => c == '/')).length = 0 := by omega
        exact List.length_eq_zero.mp h2
      simp [trimLeadingSlashes, List.dropWhile_cons,
        dropWhile_eq_self_of_takeWhile_nil _ _ htake]
    · rw [if_neg (by simp [hc])]
      simp [trimLeadingSlashes, List.dropWhile_cons, hc]

/-- With at most one trailing slash, the `cleanBase` step of `buildUrl` yields
the base with its trailing slashes removed. -/
theorem cleanBase_eq (b : JStr) (h : trailingSlashCount b ≤ 1) :
    (if b.getLast? = some '/' then b.dropLast else b) = trimTrailingSlashes b := by
  cases hrb : b.reverse with
  | nil =>
    have hb : b = [] := by
      have h2 := congrArg List.reverse hrb
      simpa using h2
    subst hb
    simp [trimTrailingSlashes]
  | cons c cs =>
    have hb : b = cs.reverse ++ [c] := by
      have h2 := congrArg List.reverse hrb
      simpa using h2
    have hlast : b.getLast? = some c := by
      rw [hb]
      exact List.getLast?_concat _
    by_cases hc : c = '/'
    · subst hc
      rw [if_pos hlast]
      have htake : cs.takeWhile (fun c => c == '/') = [] := by
        have heq : trailingSlashCount b
            = ('/' :: cs.takeWhile (fun c => c == '/')).length := by
          simp [trailingSlashCount, hrb]
        have h1 : ('/' :: cs.takeWhile (fun c => c == '/')).length ≤ 1 := heq ▸ h
        rw [List.length_cons] at h1
        have h2 : (cs.takeWhile (fun c => c == '/')).length = 0 := by omega
        exact List.length_eq_zero.mp h2
      have hdrop : b.dropLast = cs.reverse := by
        rw [hb]
        exact List.dropLast_concat ..
      rw [hdrop]
      simp [trimTrailingSlashes, hrb, List.dropWhile_cons,
        dropWhile_eq_self_of_takeWhile_nil _ _ htake]
    · rw [if_neg (by simp [hlast, hc])]
      simp only [trimTrailingSlashes, hrb, List.dropWhile_cons]
      rw [if_neg (by simp [hc])]
      rw [hb, List.reverse_cons]

/-- A built URL ends with the last character of its (nonempty) path
fragment. -/
theorem buildUrl_getLast (b p : JStr) (hp : p ≠ []) :
    (buildUrl b p).getLast? = p.getLast? := by
  show ((if b.getLast? = some '/' then b.dropLast else b)
      ++ (if p.head? = some '/' then p else '/' :: p)).getLast? = p.getLast?
  by_cases hph : p.head? = some '/'
  · rw [if_pos hph, List.getLast?_append_of_ne_nil _ hp]
  · rw [if_neg hph, List.getLast?_append_of_ne_nil _ (List.cons_ne_nil _ _)]
    show (['/'] ++ p).getLast? = p.getLast?
    exact List.getLast?_append_of_ne_nil _ hp

/-- C7 amended: `buildUrl` produces exactly one separating slash whenever the
base carries at most one trailing slash and the fragment at most one leading
slash (the code strips or inserts only a single slash, so bases ending in two
slashes keep a double seam — see the counterexample); the three example
equalities hold; and joining an already-joined URL, whose fragment was
nonempty and slash-free at its end, with a further fragment carrying at most
one leading slash appends exactly one separating slash — no double slash is
introduced at the new seam. -/
theorem whisperly_c7_single_slash_amended :
    (∀ b p, trailingSlashCount b ≤ 1 → leadingSlashCount p ≤ 1 →
        buildUrl b p = singleSlashJoin b p) ∧
    (buildUrl (str "https://h") (str "x") = str "https://h/x" ∧
      buildUrl (str "https://h/") (str "x") = str "https://h/x" ∧
      buildUrl (str "https://h") (str "/x") = str "https://h/x") ∧
    (∀ b p q, p ≠ [] → p.getLast? ≠ some '/' → leadingSlashCount q ≤ 1 →
        buildUrl (buildUrl b p) q = buildUrl b p ++ '/' :: trimLeadingSlashes q) := by
  refine ⟨?_, by decide, ?_⟩
  · intro b p hb hp
    show (if b.getLast? = some '/' then b.dropLast else b)
        ++ (if p.head? = some '/' then p else '/' :: p)
      = trimTrailingSlashes b ++ '/' :: trimLeadingSlashes p
    rw [cleanBase_eq b hb, cleanPath_eq p hp]
  · intro b p q hp0 hp hq
    have hlast : (buildUrl b p).getLast? ≠ some '/' := by
      rw [buildUrl_getLast b p hp0]
      exact hp
    show (if (buildUrl b p).getLast? = some '/' then (buildUrl b p).dropLast else buildUrl b p)
        ++ (if q.head? = some '/' then q else '/' :: q)
      = buildUrl b p ++ '/' :: trimLeadingSlashes q
    rw [if_neg hlast, cleanPath_eq q hq]

/-- Witness for the C7 amended theorem: a base with one trailing slash joins
with exactly one separating slash, and composing an already-joined URL with a
further fragment keeps a single seam slash. -/
theorem whisperly_c7_single_slash_amended_witness :
    buildUrl (str "https://h/") (str "x") = singleSlashJoin (str "https://h/") (str "x") ∧
    buildUrl (buildUrl (str "https://h") (str "x")) (str "y")
      = buildUrl (str "https://h") (str "x") ++ '/' :: trimLeadingSlashes (str "y") := by
  have h := whisperly_c7_single_slash_amended
  exact ⟨h.1 (str "https://h/") (str "x") (by decide) (by decide),
         h.2.2 (str "https://h") (str "x") (str "y") (by decide) (by decide) (by decide)⟩
